import Mathlib

/-!
A shallow embedding of the MachineLearningStocks pipeline
(`parsing_keystats.py`, `backtesting.py`, `stock_prediction.py`,
`current_data.py`) and proofs about it.

Conventions of the embedding:
* machine floats become `ℚ`;
* a pandas `NaN` / the string sentinel `"N/A"` becomes `none : Option ℚ`;
* a `.loc` lookup that may raise `KeyError` becomes a function into `Option`;
* the external regex engine (`re.search`) and `re.escape` are abstracted as
  function parameters; the regex *strings* the code builds are embedded
  literally;
* Python tuples of statically unknown arity (the return value of
  `calculate_returns`) become `List ℚ`, and tuple unpacking becomes a match
  that fails (raises `ValueError`) on any other arity.
-/

namespace MLStocks

/-! ## Fundamentals extractor (`parsing_keystats.parse_html_file`) -/

/-- The canonical ordered field list of `parsing_keystats.py` (`features`). -/
def features : List String :=
  [ "Market Cap", "Enterprise Value", "Trailing P/E", "Forward P/E", "PEG Ratio",
    "Price/Sales", "Price/Book", "Enterprise Value/Revenue", "Enterprise Value/EBITDA",
    "Profit Margin", "Operating Margin", "Return on Assets", "Return on Equity",
    "Revenue", "Revenue Per Share", "Qtrly Revenue Growth", "Gross Profit",
    "EBITDA", "Net Income Avl to Common", "Diluted EPS", "Qtrly Earnings Growth",
    "Total Cash", "Total Cash Per Share", "Total Debt", "Total Debt/Equity",
    "Current Ratio", "Book Value Per Share", "Operating Cash Flow", "Levered Free Cash Flow",
    "Beta", "50-Day Moving Average", "200-Day Moving Average", "Avg Vol (3 month)",
    "Shares Outstanding", "Float", "% Held by Insiders", "% Held by Institutions",
    "Shares Short (as of", "Short Ratio", "Short % of Float", "Shares Short (prior month" ]

/-- Tail of the primary per-field regex built in `parse_html_file`
(everything after `">" + re.escape(variable)`). -/
def valueTail : String :=
  ".*?(\\-?\\d+\\.*\\d*K?M?B?|N/A[\\\\n|\\s]*|>0|NaN)%?(</td>|</span>)"

/-- Tail of the retry regex for the renamed volume field (it omits the `NaN`
alternative, exactly as in the source). -/
def valueTailAlt : String :=
  ".*?(\\-?\\d+\\.*\\d*K?M?B?|N/A[\\\\n|\\s]*|>0)%?(</td>|</span>)"

/-- The primary regex string `r">" + re.escape(variable) + ...` of
`parse_html_file`; `esc` stands for `re.escape`. -/
def primaryRegex (esc : String → String) (v : String) : String :=
  ">" ++ esc v ++ valueTail

/-- The retry regex string for `new_variable = ">Average Volume (3 month)"`. -/
def altRegex (esc : String → String) : String :=
  esc ">Average Volume (3 month)" ++ valueTailAlt

/-- One iteration of the `for variable in features` loop of `parse_html_file`:
try the primary regex; on no match (`AttributeError`) retry the alternate
anchor when and only when the field is `"Avg Vol (3 month)"`, else record
Missing (`"N/A"`).
`reSearch regex source` abstracts `re.search(regex, source, re.DOTALL)`
returning the captured value token; `normalize` abstracts
`utils.data_string_to_float`, modelled from the spec as soft-failing into
Missing (its source file is absent). -/
def extractField (reSearch : String → String → Option String)
    (esc : String → String) (normalize : String → Option ℚ)
    (source v : String) : Option ℚ :=
  match reSearch (primaryRegex esc v) source with
  | some value => normalize value
  | none =>
      if v = "Avg Vol (3 month)" then
        match reSearch (altRegex esc) source with
        | some value => normalize value
        | none => none
      else none

/-- `parse_html_file`: the whole per-file loop, one output entry appended per
field in `fs` (the file read and its global `.replace(",", "")` happen before
this loop; `source` is the resulting text). -/
def parse_html_file (reSearch : String → String → Option String)
    (esc : String → String) (normalize : String → Option ℚ)
    (source : String) (fs : List String) : List (Option ℚ) :=
  fs.map (extractField reSearch esc normalize source)

/-! ## Backtest evaluation (`backtesting.py`) -/

/-- `backtesting.calculate_returns`.  `y_pred` is the boolean prediction
vector (labels are boolean per the spec; `utils.status_calc` is absent from
the source tree), `z_test` the per-row `(stock_p_change, SP500_p_change)`
matrix; `z_test[y_pred, k]` is numpy boolean row masking.  The Python
function returns a 3-tuple `(0, 0, 0)` on the degenerate path and a 4-tuple
otherwise, so the result is a `List ℚ` recording the arity. -/
def calculate_returns (y_pred : List Bool) (z_test : List (ℚ × ℚ)) : List ℚ :=
  let num_positive_predictions := y_pred.count true
  if num_positive_predictions ≤ 0 then [0, 0, 0]
  else
    let selected := ((y_pred.zip z_test).filter (fun p => p.1)).map (fun p => p.2)
    let stock_returns := selected.map (fun z => 1 + z.1 / 100)
    let market_returns := selected.map (fun z => 1 + z.2 / 100)
    let avg_predicted_stock_growth := stock_returns.sum / (num_positive_predictions : ℚ)
    let index_growth := market_returns.sum / (num_positive_predictions : ℚ)
    let percentage_stock_returns := 100 * (avg_predicted_stock_growth - 1)
    let percentage_market_returns := 100 * (index_growth - 1)
    [ (num_positive_predictions : ℚ), percentage_stock_returns,
      percentage_market_returns,
      percentage_stock_returns - percentage_market_returns ]

/-- The stock-prediction performance report `backtest` tries to build. -/
structure Report where
  num_positive_predictions : ℚ
  percentage_stock_returns : ℚ
  percentage_market_returns : ℚ
  total_outperformance : ℚ
  deriving DecidableEq

/-- The 4-variable tuple unpacking in `backtest`:
`a, b, c, d = calculate_returns(...)` succeeds only on a 4-element tuple and
raises `ValueError` (here: `none`) on any other arity. -/
def unpack4 (l : List ℚ) : Option Report :=
  match l with
  | [a, b, c, d] => some ⟨a, b, c, d⟩
  | _ => none

/-- The realized-return part of `backtest`: call `calculate_returns` and
unpack its result into the four report variables. -/
def backtest_report (y_pred : List Bool) (z_test : List (ℚ × ℚ)) : Option Report :=
  unpack4 (calculate_returns y_pred z_test)

/-- The report the spec asks for, written from the spec's words ("average
1 + percent_change/100 over the rows predicted positive, convert back to a
percentage, report the difference"), to be compared with
`calculate_returns`. -/
def spec_return_report (rows : List (ℚ × ℚ)) : ℚ × ℚ × ℚ :=
  let s := 100 * ((rows.map (fun z => 1 + z.1 / 100)).sum / (rows.length : ℚ) - 1)
  let m := 100 * ((rows.map (fun z => 1 + z.2 / 100)).sum / (rows.length : ℚ) - 1)
  (s, m, s - m)

/-! ## Labels and the train/test split -/

/-- Modelled from the spec: `utils.status_calc` (its file `utils.py` is
absent from the source tree).  Per spec §3/§4.3 the label is the boolean
`ticker_percent_change - benchmark_percent_change >= threshold`, computed
elementwise over the two percent-change columns. -/
def status_calc (stock sp500 : List ℚ) (outperformance : ℚ) : List Bool :=
  (stock.zip sp500).map (fun p => decide (outperformance ≤ p.1 - p.2))

/-- `stock_prediction.OUTPERFORMANCE`: `int(os.getenv("OUTPERFORMANCE", 10))`
with the environment override left out — the default value 10. -/
def OUTPERFORMANCE : ℚ := 10

/-- One row of `keystats.csv` as `load_data` sees it: the non-index columns
`Unix, Ticker, Price, stock_p_change, SP500, SP500_p_change` and then the
feature columns (`columns[6:]`).  Numeric cells may be `NaN` (`none`). -/
structure CsvRow where
  unix : Option ℚ
  ticker : String
  price : Option ℚ
  stock_p_change : Option ℚ
  sp500 : Option ℚ
  SP500_p_change : Option ℚ
  features : List (Option ℚ)
  deriving DecidableEq

/-- Does the row contain a missing value in any column
(`dropna(axis=0, how="any")` drops exactly these rows)? -/
def row_has_missing (r : CsvRow) : Bool :=
  r.unix.isNone || r.price.isNone || r.stock_p_change.isNone ||
  r.sp500.isNone || r.SP500_p_change.isNone || r.features.any (fun v => v.isNone)

/-- `backtesting.load_data` / `stock_prediction.load_data` after a successful
`read_csv`: drop every row with at least one missing value. -/
def load_data (rows : List CsvRow) : List CsvRow :=
  rows.filter (fun r => !row_has_missing r)

/-- A linear congruential step, the pseudo-random generator of the
`train_test_split` model. -/
def lcg (s : ℕ) : ℕ := (1103515245 * s + 12345) % 2147483648

/-- Modelled from the spec: the seeded shuffle inside sklearn's
`train_test_split` (sklearn is an external collaborator; the spec only
requires a deterministic seed-driven permutation).  A Fisher–Yates style
selection driven by `lcg`. -/
def seeded_shuffle : ℕ → List α → List α
  | _, [] => []
  | seed, x :: xs =>
      let i := seed % (xs.length + 1)
      (x :: xs).getD i x :: seeded_shuffle (lcg seed) ((x :: xs).eraseIdx i)
  termination_by _ l => l.length
  decreasing_by
    simp only [List.length_eraseIdx, List.length_cons]
    have hi : i < xs.length + 1 := Nat.mod_lt _ (Nat.succ_pos _)
    simp [hi]

/-- Modelled from the spec: sklearn's `train_test_split(..., test_size,
random_state)` on one sequence — deterministically permute by the seed, then
split off `ceil(test_size * n)` rows as the test set.  Returns
`(train, test)`. -/
def train_test_split (rows : List α) (test_size : ℚ) (random_state : ℕ) :
    List α × List α :=
  let shuffled := seeded_shuffle (lcg (random_state + 1)) rows
  let n_test := (⌈test_size * (rows.length : ℚ)⌉).toNat
  (shuffled.drop n_test, shuffled.take n_test)

/-- The six arrays returned by `backtesting.split_data`. -/
structure SplitResult where
  X_train : List (List (Option ℚ))
  X_test : List (List (Option ℚ))
  y_train : List Bool
  y_test : List Bool
  z_train : List (ℚ × ℚ)
  z_test : List (ℚ × ℚ)
  deriving DecidableEq

/-- `backtesting.split_data`: features are `columns[6:]`, `y` is
`status_calc(stock_p_change, SP500_p_change, outperformance=10)`, `z` the two
percent-change columns, split with `random_state=0`.  sklearn applies one
permutation consistently to `X`, `y` and `z`, so the embedding splits the
rows once and projects the three views from each side. -/
def split_data (df : List CsvRow) (test_size : ℚ := 1/5) : SplitResult :=
  let p := train_test_split df test_size 0
  { X_train := p.1.map (fun r => r.features)
    X_test := p.2.map (fun r => r.features)
    y_train := status_calc (p.1.map (fun r => r.stock_p_change.getD 0))
      (p.1.map (fun r => r.SP500_p_change.getD 0)) 10
    y_test := status_calc (p.2.map (fun r => r.stock_p_change.getD 0))
      (p.2.map (fun r => r.SP500_p_change.getD 0)) 10
    z_train := p.1.map (fun r => (r.stock_p_change.getD 0, r.SP500_p_change.getD 0))
    z_test := p.2.map (fun r => (r.stock_p_change.getD 0, r.SP500_p_change.getD 0)) }

/-! ## Price series preprocessing (`parsing_keystats.py`) -/

/-- Python's `round(x, 2)` over the rationals of the embedding. -/
def round2 (x : ℚ) : ℚ := (round (100 * x) : ℤ) / 100

/-- `reindex_and_fill` followed by a `.loc[d]` lookup.  A price series is a
date-sorted list of `(day, price)` pairs (days as integers);
`pd.date_range(start, stop)` keeps only the days in `[start, stop]`, and
`ffill` resolves day `d` to the value at the greatest series day in
`[start, d]` — original entries before `start` are discarded by the reindex
and cannot be used by the fill.  Outside `[start, stop]` the lookup raises
`KeyError` (`none`). -/
def reindex_and_fill (s : List (ℤ × ℚ)) (start stop d : ℤ) : Option ℚ :=
  if start ≤ d ∧ d ≤ stop then
    ((s.filter (fun p => start ≤ p.1 ∧ p.1 ≤ d)).map Prod.snd).getLast?
  else none

/-- `preprocess_price_data`: if either loaded series is empty the error
path returns two empty frames (lookups that always miss); otherwise both
the benchmark and the stock series are reindexed and forward-filled over
`[stock_df.index[0], stock_df.index[-1]]`. -/
def preprocess_price_data (sp500_df stock_df : List (ℤ × ℚ)) :
    (ℤ → Option ℚ) × (ℤ → Option ℚ) :=
  if sp500_df.isEmpty || stock_df.isEmpty then (fun _ => none, fun _ => none)
  else
    match stock_df.head?, stock_df.getLast? with
    | some first, some last =>
        (fun d => reindex_and_fill sp500_df first.1 last.1 d,
         fun d => reindex_and_fill stock_df first.1 last.1 d)
    | _, _ => (fun _ => none, fun _ => none)

/-! ## Dataset assembly (`parsing_keystats.parse_keystats`) -/

/-- The forward horizon-end timestamp of `parse_keystats`:
`unix_time + 31536000` (the literal constant in the source). -/
def one_year_later_unix (u : ℤ) : ℤ := u + 31536000

/-- One `LabeledRow` of the assembled dataset (the price-derived columns;
the feature columns are carried alongside by the assembler). -/
structure LabeledRow where
  ticker : String
  price : ℚ
  stock_p_change : ℚ
  sp500 : ℚ
  SP500_p_change : ℚ
  deriving DecidableEq

/-- The per-snapshot body of the `parse_keystats` loop.  `sp500_df` and
`stock_df` are the date-keyed price lookups (`.loc[date, col]`, `none` =
`KeyError`); the first failing pair (benchmark, then — modelled from the
spec, the source file being cut off inside this `except` clause — the
ticker) makes the loop `continue`, emitting nothing. -/
def buildRow (sp500_df stock_df : String → Option ℚ) (ticker : String)
    (current_date one_year_later : String) : Option LabeledRow :=
  match sp500_df current_date, sp500_df one_year_later with
  | some sp500_price, some sp500_1y_price =>
      match stock_df current_date, stock_df one_year_later with
      | some stock_price, some stock_1y_price =>
          some { ticker := ticker
                 price := stock_price
                 stock_p_change :=
                   round2 ((stock_1y_price - stock_price) / stock_price * 100)
                 sp500 := sp500_price
                 SP500_p_change :=
                   round2 ((sp500_1y_price - sp500_price) / sp500_price * 100) }
      | _, _ => none
  | _, _ => none

/-- The dataset rows `parse_keystats` emits for one ticker: one row per
snapshot `(current_date, one_year_later)` whose four price lookups all
resolve. -/
def parse_keystats (sp500_df stock_df : String → Option ℚ) (ticker : String)
    (snapshots : List (String × String)) : List LabeledRow :=
  snapshots.filterMap (fun s => buildRow sp500_df stock_df ticker s.1 s.2)

/-! ## Helper lemmas -/

/-- The boolean mask selects as many rows as there are `true` predictions,
when the mask and the matrix have the same number of rows. -/
lemma mask_length (y : List Bool) (z : List (ℚ × ℚ)) (h : y.length = z.length) :
    ((y.zip z).filter (fun p => p.1)).length = y.count true := by
  induction y generalizing z with
  | nil => simp
  | cons b ys ih =>
      cases z with
      | nil => simp at h
      | cons q zs =>
          simp only [List.zip_cons_cons, List.filter_cons]
          cases b <;>
            simp [ih zs (by simpa using h), List.count_cons]

/-- `filterMap` ignores exactly the elements mapped to `none`. -/
lemma filterMap_eq_filterMap_filter (f : α → Option β) (l : List α) :
    l.filterMap f = (l.filter (fun a => (f a).isSome)).filterMap f := by
  induction l with
  | nil => rfl
  | cons a l ih =>
      cases hf : f a with
      | none => simp [List.filterMap_cons, List.filter_cons, hf, ih]
      | some b => simp [List.filterMap_cons, List.filter_cons, hf, ih]

/-- A shuffled list draws all its elements from the input list. -/
lemma mem_seeded_shuffle {a : α} :
    ∀ (s : ℕ) (l : List α), a ∈ seeded_shuffle s l → a ∈ l := by
  intro s l
  induction s, l using seeded_shuffle.induct with
  | case1 _ => intro h; simp [seeded_shuffle] at h
  | case2 seed x xs i ih =>
      intro h
      simp only [seeded_shuffle] at h
      rcases List.mem_cons.mp h with h | h
      · subst h
        rcases lt_or_le (seed % (xs.length + 1)) (x :: xs).length with hlt | hle
        · rw [List.getD_eq_getElem?_getD, List.getElem?_eq_getElem hlt]
          exact List.getElem_mem hlt
        · rw [List.getD_eq_getElem?_getD, List.getElem?_eq_none hle]
          exact List.mem_cons_self x xs
      · exact List.mem_of_mem_eraseIdx (ih h)

/-- Elementwise reading of `status_calc`. -/
lemma status_calc_getD (s b : List ℚ) (t : ℚ) (i : ℕ) :
    (status_calc s b t).getD i false =
      (decide (i < s.length) && decide (i < b.length) &&
        decide (t ≤ s.getD i 0 - b.getD i 0)) := by
  induction s generalizing b i with
  | nil => simp [status_calc]
  | cons v s ih =>
      cases b with
      | nil => simp [status_calc]
      | cons w b =>
          cases i with
          | zero => simp [status_calc]
          | succ i =>
              have := ih b i
              simp only [status_calc] at this ⊢
              simpa [Nat.succ_lt_succ_iff] using this

/-! ## The claims -/

/-- Claim C6: the forward horizon-end timestamp is the snapshot timestamp
plus exactly 31,536,000 seconds = 365 days, a fixed duration strictly short
of a 366-day leap-aware year. -/
theorem c6_horizon_is_365_days :
    ∀ u : ℤ, one_year_later_unix u - u = 365 * 86400 ∧
      one_year_later_unix u - u < 366 * 86400 := by
  intro u
  unfold one_year_later_unix
  omega

/-- Claim C1 (code bug): on a held-out set with zero positive predictions,
`calculate_returns` takes the degenerate branch and returns the 3-tuple
`(0, 0, 0)`, but `backtest` unpacks its result into four variables, so the
run raises `ValueError` (`none`) instead of ending normally with a
no-trades report; with at least one positive prediction the same unpacking
succeeds. -/
theorem c1_degenerate_backtest_crashes :
    calculate_returns [false, false] [(10, 2), (4, 1)] = [0, 0, 0] ∧
    (calculate_returns [false, false] [(10, 2), (4, 1)]).length = 3 ∧
    backtest_report [false, false] [(10, 2), (4, 1)] = none ∧
    backtest_report [true, false] [(10, 2), (4, 1)] = some ⟨1, 10, 2, 8⟩ := by
  refine ⟨by norm_num [calculate_returns], by norm_num [calculate_returns], ?_, ?_⟩
  · norm_num [backtest_report, unpack4, calculate_returns]
  · norm_num [backtest_report, unpack4, calculate_returns, Report.mk.injEq]

/-- Claim C3: `parse_keystats` emits a row for a snapshot exactly when all
four price lookups (benchmark and ticker, at the snapshot date and at the
horizon-end date) resolve; a snapshot with any failing lookup contributes
nothing to the dataset — there are no partial rows. -/
theorem c3_no_partial_rows (sp500_df stock_df : String → Option ℚ)
    (tk : String) :
    (∀ c y, (buildRow sp500_df stock_df tk c y).isSome =
      ((sp500_df c).isSome && (sp500_df y).isSome &&
        (stock_df c).isSome && (stock_df y).isSome)) ∧
    (∀ snapshots : List (String × String),
      parse_keystats sp500_df stock_df tk snapshots =
        (snapshots.filter
            (fun s => (buildRow sp500_df stock_df tk s.1 s.2).isSome)).filterMap
          (fun s => buildRow sp500_df stock_df tk s.1 s.2)) := by
  constructor
  · intro c y
    rcases hc : sp500_df c with _ | pc <;> rcases hy : sp500_df y with _ | py <;>
      rcases hsc : stock_df c with _ | sc <;> rcases hsy : stock_df y with _ | sy <;>
        simp [buildRow, hc, hy, hsc, hsy]
  · intro snapshots
    exact filterMap_eq_filterMap_filter _ snapshots

/-- Claim C7: a row's outperformance label is `true` exactly when the
ticker's forward percent change beats the benchmark's by at least the
threshold; the default threshold `OUTPERFORMANCE` is 10 percentage points;
+20 vs +5 labels `true` and +12 vs +5 labels `false`. -/
theorem c7_outperformance_label :
    (∀ (s b : List ℚ) (t : ℚ) (i : ℕ),
      (status_calc s b t).getD i false =
        (decide (i < s.length) && decide (i < b.length) &&
          decide (t ≤ s.getD i 0 - b.getD i 0))) ∧
    OUTPERFORMANCE = 10 ∧
    status_calc [20, 12] [5, 5] OUTPERFORMANCE = [true, false] := by
  refine ⟨status_calc_getD, rfl, ?_⟩
  norm_num [status_calc, OUTPERFORMANCE]

/-- Claim C2: with at least one positive prediction, `calculate_returns`
averages `1 + percent_change/100` over exactly the rows predicted positive,
converts each average back to a percentage and reports their difference —
the spec-side report `spec_return_report` of the masked rows; on the
two-row scenario (+10/+2 and +4/+1, both predicted positive) it reports
7% strategy return, 1.5% benchmark return, 5.5 points outperformance. -/
theorem c2_return_report (y : List Bool) (z : List (ℚ × ℚ))
    (hlen : y.length = z.length) (hpos : 0 < y.count true) :
    calculate_returns y z =
      [ ((((y.zip z).filter (fun p => p.1)).map (fun p => p.2)).length : ℚ),
        (spec_return_report (((y.zip z).filter (fun p => p.1)).map (fun p => p.2))).1,
        (spec_return_report (((y.zip z).filter (fun p => p.1)).map (fun p => p.2))).2.1,
        (spec_return_report (((y.zip z).filter (fun p => p.1)).map (fun p => p.2))).2.2 ] ∧
    calculate_returns [true, true] [(10, 2), (4, 1)] = [2, 7, 3/2, 11/2] := by
  constructor
  · have hm := mask_length y z hlen
    simp only [calculate_returns, spec_return_report, List.length_map, hm]
    rw [if_neg (by omega)]
  · norm_num [calculate_returns]

/-- Concrete run of `c2_return_report` on the spec's two-row scenario. -/
theorem c2_return_report_witness :
    ([true, true] : List Bool).length = ([(10, 2), (4, 1)] : List (ℚ × ℚ)).length ∧
    0 < ([true, true] : List Bool).count true ∧
    (calculate_returns [true, true] [(10, 2), (4, 1)] =
      [ (((([true, true].zip [((10 : ℚ), (2 : ℚ)), (4, 1)]).filter
            (fun p => p.1)).map (fun p => p.2)).length : ℚ),
        (spec_return_report ((([true, true].zip [((10 : ℚ), (2 : ℚ)), (4, 1)]).filter
            (fun p => p.1)).map (fun p => p.2))).1,
        (spec_return_report ((([true, true].zip [((10 : ℚ), (2 : ℚ)), (4, 1)]).filter
            (fun p => p.1)).map (fun p => p.2))).2.1,
        (spec_return_report ((([true, true].zip [((10 : ℚ), (2 : ℚ)), (4, 1)]).filter
            (fun p => p.1)).map (fun p => p.2))).2.2 ] ∧
      calculate_returns [true, true] [(10, 2), (4, 1)] = [2, 7, 3/2, 11/2]) :=
  ⟨by decide, by decide,
    c2_return_report [true, true] [(10, 2), (4, 1)] (by decide) (by decide)⟩

/-- Claim C4: after `reindex_and_fill`, a series whose data starts at the
window start resolves a price at every calendar day of the window — also at
non-trading days strictly between data points, via forward fill — and a
lookup fails exactly outside the window; through `preprocess_price_data`
(both input series nonempty, so the empty-input error path is not taken)
the stock series is filled over the window spanned by its own first and
last dates, so every day of that covered range resolves. -/
theorem c4_forward_fill_total (s : List (ℤ × ℚ)) (start stop d : ℤ) (p : ℚ)
    (hmem : (start, p) ∈ s) :
    (reindex_and_fill s start stop d).isSome =
      (decide (start ≤ d) && decide (d ≤ stop)) ∧
    (∀ (sq x : ℤ × ℚ) (sqs rest : List (ℤ × ℚ)) (e : ℤ),
      ((preprocess_price_data (sq :: sqs) (x :: rest)).2 e).isSome =
        (decide (x.1 ≤ e) &&
          decide (e ≤ ((x :: rest).getLastD x).1))) := by
  have key : ∀ (s : List (ℤ × ℚ)) (start stop d : ℤ) (p : ℚ),
      (start, p) ∈ s →
      (reindex_and_fill s start stop d).isSome =
        (decide (start ≤ d) && decide (d ≤ stop)) := by
    intro s start stop d p hmem
    unfold reindex_and_fill
    by_cases h : start ≤ d ∧ d ≤ stop
    · rw [if_pos h]
      have hmf : (start, p) ∈ s.filter (fun q => decide (start ≤ q.1 ∧ q.1 ≤ d)) := by
        rw [List.mem_filter]
        exact ⟨hmem, by simp [h.1]⟩
      have hne : (s.filter (fun q => decide (start ≤ q.1 ∧ q.1 ≤ d))) ≠ [] :=
        fun hnil => by rw [hnil] at hmf; simp at hmf
      have hsome : ((s.filter (fun q => decide (start ≤ q.1 ∧ q.1 ≤ d))).map
          Prod.snd).getLast?.isSome = true := by
        rw [List.getLast?_isSome]
        simpa using hne
      simpa [decide_eq_true h.1, decide_eq_true h.2] using hsome
    · rw [if_neg h]
      rcases not_and_or.mp h with h1 | h1 <;> simp [h1]
  refine ⟨key s start stop d p hmem, ?_⟩
  intro sq x sqs rest e
  have hl : (x :: rest).getLast? = some ((x :: rest).getLastD x) := by
    rw [List.getLastD_eq_getLast?]
    cases hg : (x :: rest).getLast? with
    | none => simp at hg
    | some v => rfl
  simp only [preprocess_price_data, List.isEmpty_cons, Bool.or_self, Bool.false_eq_true,
    if_false, List.head?_cons, hl]
  exact key (x :: rest) x.1 ((x :: rest).getLastD x).1 e x.2 (List.mem_cons_self x rest)

/-- Concrete run of `c4_forward_fill_total`: a series with prices at days 0
and 3 and a weekend gap at days 1–2 still resolves a lookup at day 1. -/
theorem c4_forward_fill_total_witness :
    ((0 : ℤ), (100 : ℚ)) ∈ [((0 : ℤ), (100 : ℚ)), (3, 106)] ∧
    ((reindex_and_fill [((0 : ℤ), (100 : ℚ)), (3, 106)] 0 3 1).isSome =
        (decide ((0 : ℤ) ≤ 1) && decide ((1 : ℤ) ≤ 3)) ∧
      (∀ (sq x : ℤ × ℚ) (sqs rest : List (ℤ × ℚ)) (e : ℤ),
        ((preprocess_price_data (sq :: sqs) (x :: rest)).2 e).isSome =
          (decide (x.1 ≤ e) && decide (e ≤ ((x :: rest).getLastD x).1)))) :=
  ⟨by decide, c4_forward_fill_total [((0 : ℤ), (100 : ℚ)), (3, 106)] 0 3 1 100 (by decide)⟩

/-- Claim C5: the fundamentals extractor returns one entry per requested
field — the output is never shorter than the field list, for any input text
— and a field whose anchors find nothing, or whose found token does not
normalize, is recorded as Missing. -/
theorem c5_fixed_length_extraction (rs : String → String → Option String)
    (esc : String → String) (nz : String → Option ℚ) (source : String)
    (fs : List String) (i : ℕ) (hi : i < fs.length)
    (hmiss : (rs (primaryRegex esc (fs.getD i "")) source = none ∧
        rs (altRegex esc) source = none) ∨
      ∃ v, rs (primaryRegex esc (fs.getD i "")) source = some v ∧ nz v = none) :
    (parse_html_file rs esc nz source fs).length = fs.length ∧
    (parse_html_file rs esc nz source fs).getD i (some 0) = none := by
  constructor
  · simp [parse_html_file]
  · obtain ⟨w, hw, hdef⟩ : ∃ w, fs[i]? = some w ∧ fs.getD i "" = w := by
      rcases hw : fs[i]? with _ | w
      · rw [List.getElem?_eq_none_iff] at hw; omega
      · exact ⟨w, rfl, by rw [List.getD_eq_getElem?_getD, hw]; rfl⟩
    have hproj : (parse_html_file rs esc nz source fs).getD i (some 0) =
        extractField rs esc nz source w := by
      simp [parse_html_file, List.getD_eq_getElem?_getD, List.getElem?_map, hw]
    rw [hproj]
    rw [hdef] at hmiss
    rcases hmiss with ⟨hp, ha⟩ | ⟨v, hp, hv⟩
    · by_cases hc : w = "Avg Vol (3 month)"
      · subst hc
        simp [extractField, hp, ha]
      · simp [extractField, hp, hc]
    · simp [extractField, hp, hv]

/-- Concrete run of `c5_fixed_length_extraction`: on empty text every anchor
misses, and the output still has one (Missing) entry per canonical field. -/
theorem c5_fixed_length_extraction_witness :
    0 < features.length ∧
    (((fun _ _ => (none : Option String)) (primaryRegex id (features.getD 0 "")) "" = none ∧
        (fun _ _ => (none : Option String)) (altRegex id) "" = none) ∨
      ∃ v, (fun _ _ => (none : Option String)) (primaryRegex id (features.getD 0 "")) ""
          = some v ∧ (fun _ => (none : Option ℚ)) v = none) ∧
    ((parse_html_file (fun _ _ => none) id (fun _ => none) "" features).length =
        features.length ∧
      (parse_html_file (fun _ _ => none) id (fun _ => none) "" features).getD 0
          (some 0) = none) :=
  ⟨by decide, Or.inl ⟨rfl, rfl⟩,
    c5_fixed_length_extraction (fun _ _ => none) id (fun _ => none) "" features 0
      (by decide) (Or.inl ⟨rfl, rfl⟩)⟩

/-- Claim C8: when the primary anchor of `"Avg Vol (3 month)"` misses, the
extractor retries with the alternate `"Average Volume (3 month)"` anchor and
records whatever that anchor's value normalizes to (Missing only when the
alternate also misses); a missed primary anchor on any other field is
recorded as Missing at once, with no retry consulted. -/
theorem c8_rename_retry (rs : String → String → Option String)
    (esc : String → String) (nz : String → Option ℚ) (source : String)
    (w : String) (hw : ¬ w = "Avg Vol (3 month)")
    (hp : rs (primaryRegex esc "Avg Vol (3 month)") source = none)
    (hpw : rs (primaryRegex esc w) source = none) :
    extractField rs esc nz source "Avg Vol (3 month)" =
      Option.elim (rs (altRegex esc) source) none nz ∧
    extractField rs esc nz source w = none := by
  constructor
  · cases ha : rs (altRegex esc) source with
    | none => simp [extractField, hp, ha]
    | some v => simp [extractField, hp, ha]
  · simp [extractField, hpw, hw]

/-- Concrete run of `c8_rename_retry` with both anchors missing on
`"Avg Vol (3 month)"` and the primary anchor missing on `"Market Cap"`. -/
theorem c8_rename_retry_witness :
    ¬ ("Market Cap" : String) = "Avg Vol (3 month)" ∧
    (fun _ _ => (none : Option String)) (primaryRegex id "Avg Vol (3 month)") "" = none ∧
    (fun _ _ => (none : Option String)) (primaryRegex id "Market Cap") "" = none ∧
    (extractField (fun _ _ => none) id (fun _ => none) "" "Avg Vol (3 month)" =
        Option.elim ((fun _ _ => (none : Option String)) (altRegex id) "") none
          (fun _ => (none : Option ℚ)) ∧
      extractField (fun _ _ => none) id (fun _ => none) "" "Market Cap" = none) :=
  ⟨by decide, rfl, rfl,
    c8_rename_retry (fun _ _ => none) id (fun _ => none) "" "Market Cap"
      (by decide) rfl rfl⟩

/-- Claim C9: the train/test partition is a deterministic function of the
dataset contents and the test fraction (the seed is fixed to 0 by
`split_data`): two runs on equal inputs produce equal six-way splits. -/
theorem c9_split_determinism (df₁ df₂ : List CsvRow) (t₁ t₂ : ℚ)
    (hdf : df₁ = df₂) (ht : t₁ = t₂) :
    split_data df₁ t₁ = split_data df₂ t₂ := by
  rw [hdf, ht]

/-- Concrete run of `c9_split_determinism` on a one-row dataset. -/
theorem c9_split_determinism_witness :
    ([⟨some 1, "AAPL", some 2, some 20, some 4, some 5, [some 6]⟩] : List CsvRow) =
      [⟨some 1, "AAPL", some 2, some 20, some 4, some 5, [some 6]⟩] ∧
    (1/5 : ℚ) = 1/5 ∧
    split_data [⟨some 1, "AAPL", some 2, some 20, some 4, some 5, [some 6]⟩] (1/5) =
      split_data [⟨some 1, "AAPL", some 2, some 20, some 4, some 5, [some 6]⟩] (1/5) :=
  ⟨rfl, rfl, c9_split_determinism _ _ _ _ rfl rfl⟩

/-- Claim C10: loading drops every row with any missing value, so the
feature matrices handed to `fit`/`predict` by `split_data` contain no
Missing marker: every surviving row is fully populated and every entry of
`X_train`/`X_test` is a present value. -/
theorem c10_no_missing_reaches_fit (rows : List CsvRow) (t : ℚ) (r : CsvRow)
    (x : List (Option ℚ)) (v : Option ℚ)
    (hr : r ∈ load_data rows)
    (hx : x ∈ (split_data (load_data rows) t).X_train ∨
      x ∈ (split_data (load_data rows) t).X_test)
    (hv : v ∈ x) :
    row_has_missing r = false ∧ v.isSome = true := by
  have hclean : ∀ q : CsvRow, q ∈ load_data rows → row_has_missing q = false := by
    intro q hq
    have := (List.mem_filter.mp hq).2
    simpa using this
  refine ⟨hclean r hr, ?_⟩
  have hx' : ∃ q : CsvRow, q ∈ load_data rows ∧ q.features = x := by
    rcases hx with hx | hx
    · simp only [split_data, train_test_split] at hx
      rcases List.mem_map.mp hx with ⟨q, hq, hqx⟩
      exact ⟨q, mem_seeded_shuffle _ _ (List.drop_subset _ _ hq), hqx⟩
    · simp only [split_data, train_test_split] at hx
      rcases List.mem_map.mp hx with ⟨q, hq, hqx⟩
      exact ⟨q, mem_seeded_shuffle _ _ (List.take_subset _ _ hq), hqx⟩
  obtain ⟨q, hq, hqx⟩ := hx'
  have hqc := hclean q hq
  simp only [row_has_missing, Bool.or_eq_false_iff] at hqc
  have hfa := hqc.2
  rw [List.any_eq_false] at hfa
  have hvn := hfa v (by rw [hqx]; exact hv)
  cases v with
  | none => simp at hvn
  | some w => rfl

/-- Concrete run of `c10_no_missing_reaches_fit`: of two CSV rows, the one
with a missing cell is dropped and only present values reach the split. -/
theorem c10_no_missing_reaches_fit_witness :
    (⟨some 0, "A", some 1, some 20, some 2, some 5, [some 3]⟩ : CsvRow) ∈
      load_data [⟨some 0, "A", some 1, some 20, some 2, some 5, [some 3]⟩,
        ⟨none, "B", some 1, some 20, some 2, some 5, [some 3]⟩] ∧
    ((⟨some 0, "A", some 1, some 20, some 2, some 5, [some 3]⟩ : CsvRow).features ∈
        (split_data (load_data [⟨some 0, "A", some 1, some 20, some 2, some 5, [some 3]⟩,
          ⟨none, "B", some 1, some 20, some 2, some 5, [some 3]⟩]) 0).X_train ∨
      (⟨some 0, "A", some 1, some 20, some 2, some 5, [some 3]⟩ : CsvRow).features ∈
        (split_data (load_data [⟨some 0, "A", some 1, some 20, some 2, some 5, [some 3]⟩,
          ⟨none, "B", some 1, some 20, some 2, some 5, [some 3]⟩]) 0).X_test) ∧
    (some (3 : ℚ)) ∈ (⟨some 0, "A", some 1, some 20, some 2, some 5, [some 3]⟩ : CsvRow).features ∧
    (row_has_missing ⟨some 0, "A", some 1, some 20, some 2, some 5, [some 3]⟩ = false ∧
      (some (3 : ℚ)).isSome = true) :=
  ⟨by decide,
    Or.inl (by norm_num [split_data, train_test_split, load_data, row_has_missing,
      seeded_shuffle, lcg, List.getD]),
    by decide,
    c10_no_missing_reaches_fit
      [⟨some 0, "A", some 1, some 20, some 2, some 5, [some 3]⟩,
        ⟨none, "B", some 1, some 20, some 2, some 5, [some 3]⟩] 0
      ⟨some 0, "A", some 1, some 20, some 2, some 5, [some 3]⟩
      [some 3] (some 3) (by decide)
      (Or.inl (by norm_num [split_data, train_test_split, load_data, row_has_missing,
        seeded_shuffle, lcg, List.getD]))
      (by decide)⟩

end MLStocks
